import Mathlib

/-!
# TaskManagerV2 — verification of the policy-enforced task store

Shallow embedding of the repository's data layer:

* the SQL schema and row-level-security (RLS) policies in
  `supabase/migrations/20251216092500_*.sql` (tables `profiles`,
  `user_roles`, `tasks`, `activity_logs`, functions `has_role`,
  `get_user_role`, `handle_new_user`, and the per-table policies), and
* the client mutation hooks (`useTasks.createTask` / `updateTask` /
  `deleteTask` in the unnamed hook source) together with the `zod`
  form schema `taskSchema` in `components/tasks/TaskForm.tsx`.

UUIDs are modelled as `Nat`, timestamps as `Nat`, and the JSONB
before/after snapshots stored in `activity_logs.old_value/new_value`
as `Option Task` (the hook stores the task row itself).  Postgres
semantics that matter here and are modelled faithfully:

* multiple permissive policies on the same command combine with OR;
* an UPDATE policy written with `USING` and no `WITH CHECK` applies its
  `USING` expression to the *new* row as well (PostgreSQL `CREATE POLICY`);
* `LIMIT 1` without `ORDER BY` (in `get_user_role`) picks a row in
  unspecified physical order — modelled as the head of the table's row
  list, so the list order parametrises the unspecified choice;
* an error raised inside an `AFTER INSERT` trigger aborts the inserting
  statement (used by `handle_new_user` on an invalid `app_role` cast).

Primary keys are generated by `gen_random_uuid()`; callers of the insert
operations pass the fresh ids explicitly and no duplicate-key check is
modelled (no claim concerns key collisions).
-/

namespace TaskManager

/-- `task_status` enum: `'todo' | 'in_progress' | 'completed'`. -/
inductive TaskStatus where
  | todo
  | in_progress
  | completed
deriving DecidableEq, Repr

/-- `app_role` enum: `'manager' | 'user'`. -/
inductive AppRole where
  | manager
  | user
deriving DecidableEq, Repr

/-- Identities (`auth.users.id`), modelled as `Nat`. -/
abbrev UserId := Nat

/-- A row of `public.profiles`. -/
structure Profile where
  id : UserId
  email : String
  full_name : Option String
  avatar_url : Option String
  created_at : Nat
  updated_at : Nat
deriving DecidableEq, Repr

/-- A row of `public.user_roles` (`UNIQUE (user_id, role)`). -/
structure RoleRow where
  id : Nat
  user_id : UserId
  role : AppRole
  created_at : Nat
deriving DecidableEq, Repr

/-- A row of `public.tasks`.  `priority` is a nullable `INTEGER` column
with `DEFAULT 1 CHECK (priority >= 1 AND priority <= 5)`. -/
structure Task where
  id : Nat
  title : String
  description : Option String
  status : TaskStatus
  priority : Option Int
  created_by : UserId
  assigned_to : Option UserId
  due_date : Option Nat
  created_at : Nat
  updated_at : Nat
deriving DecidableEq, Repr

/-- A row of `public.activity_logs`; the JSONB snapshots are task rows. -/
structure ActivityLog where
  id : Nat
  task_id : Nat
  user_id : Option UserId
  action : String
  old_value : Option Task
  new_value : Option Task
  created_at : Nat
deriving DecidableEq, Repr

/-- The database state: one list of rows per table, plus `auth.users`.
Row lists are kept in physical order (relevant only to `get_user_role`,
whose `LIMIT 1` has no `ORDER BY`). -/
structure Store where
  users : List UserId
  profiles : List Profile
  user_roles : List RoleRow
  tasks : List Task
  activity_logs : List ActivityLog
deriving DecidableEq, Repr

/-- `public.has_role(_user_id, _role)`: `EXISTS (SELECT 1 FROM user_roles
WHERE user_id = _user_id AND role = _role)`. -/
def hasRole (db : Store) (u : UserId) (r : AppRole) : Bool :=
  db.user_roles.any fun row => row.user_id == u && row.role == r

/-- `public.get_user_role(_user_id)`: `SELECT role FROM user_roles WHERE
user_id = _user_id LIMIT 1` — no `ORDER BY`, so the row picked is the
first in the table's (unspecified) physical order. -/
def getUserRole (db : Store) (u : UserId) : Option AppRole :=
  ((db.user_roles.filter fun row => row.user_id == u).head?).map RoleRow.role

/-- The `UNIQUE (user_id, role)` constraint on `user_roles`:
no two distinct rows share the `(user_id, role)` pair. -/
def userRolesUniqueOk : List RoleRow → Bool
  | [] => true
  | r :: rs =>
      (rs.all fun r2 => !(r2.user_id == r.user_id && r2.role == r.role)) &&
      userRolesUniqueOk rs

/-- Policy "Users can view assigned tasks or own tasks" (SELECT USING):
`assigned_to = auth.uid() OR created_by = auth.uid()`. -/
def taskSelectUsing (uid : UserId) (t : Task) : Bool :=
  t.assigned_to == some uid || t.created_by == uid

/-- Policy "Managers can create tasks" (INSERT WITH CHECK):
`has_role(auth.uid(), 'manager') AND created_by = auth.uid()`. -/
def taskInsertCheck (db : Store) (uid : UserId) (t : Task) : Bool :=
  hasRole db uid .manager && t.created_by == uid

/-- The OR of the two permissive UPDATE policies on `tasks`
("Managers can update any task they created" and "Users can update
status of assigned tasks").  Since neither has a `WITH CHECK`, this
same expression is also applied to the updated row. -/
def taskUpdateUsing (db : Store) (uid : UserId) (t : Task) : Bool :=
  (hasRole db uid .manager && t.created_by == uid) || t.assigned_to == some uid

/-- Policy "Managers can delete tasks they created" (DELETE USING). -/
def taskDeleteUsing (db : Store) (uid : UserId) (t : Task) : Bool :=
  hasRole db uid .manager && t.created_by == uid

/-- The `CHECK (priority >= 1 AND priority <= 5)` constraint; a SQL CHECK
passes on NULL. -/
def checkPriority : Option Int → Bool
  | none => true
  | some p => decide (1 ≤ p) && decide (p ≤ 5)

/-- All column constraints `tasks` actually declares for a row:
just the priority CHECK (titles and descriptions are unconstrained
`TEXT`; `NOT NULL` columns are non-optional fields of `Task`). -/
def rowConstraintsOk (t : Task) : Bool :=
  checkPriority t.priority

/-- Single-row read under RLS: the row with the requested id is returned
iff it also passes the SELECT policy; an existing-but-invisible row and
a nonexistent one both yield `none`. -/
def readTask (db : Store) (uid : UserId) (tid : Nat) : Option Task :=
  db.tasks.find? fun t => taskSelectUsing uid t && t.id == tid

/-- Typed failures surfaced by the store operations. -/
inductive StoreError where
  | unauthorized
  | constraintViolation (field : String)
  | notFound
deriving DecidableEq, Repr

/-- The task payload sent by `useTasks.createTask`
(`Omit<Task, 'id' | 'created_at' | 'created_by' | 'updated_at'>`), with
SQL column defaults modelled by omission: `status = none` means the
column was omitted (DEFAULT `'todo'`), `priority = none` means omitted
(DEFAULT `1`), and `priority = some none` is an explicit SQL NULL. -/
structure TaskPayload where
  title : String
  description : Option String
  status : Option TaskStatus
  priority : Option (Option Int)
  assigned_to : Option UserId
  due_date : Option Nat
deriving DecidableEq, Repr

/-- The full row the INSERT produces: the hook sets
`created_by := user.id`, the database fills `id`, timestamps and the
column defaults (`status 'todo'`, `priority 1`). -/
def buildTask (id : Nat) (now : Nat) (uid : UserId) (p : TaskPayload) : Task :=
  { id := id
    title := p.title
    description := p.description
    status := p.status.getD .todo
    priority := p.priority.getD (some 1)
    created_by := uid
    assigned_to := p.assigned_to
    due_date := p.due_date
    created_at := now
    updated_at := now }

/-- INSERT INTO tasks under RLS: the WITH CHECK policy is evaluated
first (an RLS failure reads as `Unauthorized`), then the column
constraints; on success the row is appended and returned
(`.select().single()`). -/
def dbInsertTask (db : Store) (uid : UserId) (t : Task) :
    Except StoreError (Store × Task) :=
  if taskInsertCheck db uid t then
    if rowConstraintsOk t then
      .ok ({ db with tasks := db.tasks ++ [t] }, t)
    else .error (.constraintViolation "priority")
  else .error .unauthorized

/-- Policy "Authenticated users can create activity logs"
(INSERT WITH CHECK): `user_id = auth.uid()`. -/
def logInsertCheck (uid : UserId) (l : ActivityLog) : Bool :=
  l.user_id == some uid

/-- INSERT INTO activity_logs.  The hook never inspects the result of
this insert (`await` with no error check), so the operation returns the
possibly-unchanged store and nothing else. -/
def dbInsertActivityLog (db : Store) (uid : UserId) (l : ActivityLog) : Store :=
  if logInsertCheck uid l then
    { db with activity_logs := db.activity_logs ++ [l] }
  else db

/-- `useTasks.createTask`: insert the task (RLS + constraints); on error
return it with the store untouched; on success issue a second, separate
insert of one `activity_logs` row (`action 'created'`, no `old_value`,
`new_value` = the inserted row) whose outcome is ignored. -/
def createTask (db : Store) (uid : UserId) (p : TaskPayload)
    (newTaskId newLogId now : Nat) : Store × Except StoreError Task :=
  match dbInsertTask db uid (buildTask newTaskId now uid p) with
  | .error e => (db, .error e)
  | .ok (db1, t) =>
      (dbInsertActivityLog db1 uid
        { id := newLogId
          task_id := t.id
          user_id := some uid
          action := "created"
          old_value := none
          new_value := some t
          created_at := now }, .ok t)

/-- A TS `Partial` update payload over `Task` (`useTasks.updateTask`); the hook
never sends `id`/`created_at`, and `updated_at` is overwritten by the
`update_tasks_updated_at` trigger, so those fields are not modelled.
`some none` writes SQL NULL into a nullable column. -/
structure TaskUpdates where
  title : Option String
  description : Option (Option String)
  status : Option TaskStatus
  priority : Option (Option Int)
  created_by : Option UserId
  assigned_to : Option (Option UserId)
  due_date : Option (Option Nat)
deriving DecidableEq, Repr

/-- The row an UPDATE produces: mentioned columns are overwritten, the
`update_tasks_updated_at` trigger sets `updated_at := NOW()`. -/
def applyUpdates (now : Nat) (u : TaskUpdates) (t : Task) : Task :=
  { t with
    title := u.title.getD t.title
    description := u.description.getD t.description
    status := u.status.getD t.status
    priority := u.priority.getD t.priority
    created_by := u.created_by.getD t.created_by
    assigned_to := u.assigned_to.getD t.assigned_to
    due_date := u.due_date.getD t.due_date
    updated_at := now }

/-- `UPDATE tasks SET ... WHERE id = tid` under RLS, as issued through
`.update(...).eq('id', id).select().single()`.  `id` is the PRIMARY KEY,
so `find?` by id picks the unique candidate row.  A row invisible under
the (OR of the) UPDATE policies' USING is simply not updated, and
`.single()` then reports that no row was returned — indistinguishable
from a nonexistent id (`notFound`).  Because neither UPDATE policy
declares a WITH CHECK, the same USING disjunction is applied to the
updated row; its failure aborts the statement (`unauthorized`). -/
def dbUpdateTask (db : Store) (uid : UserId) (tid : Nat) (u : TaskUpdates)
    (now : Nat) : Except StoreError (Store × Task) :=
  match db.tasks.find? (fun t => t.id == tid) with
  | none => .error .notFound
  | some t =>
      if taskUpdateUsing db uid t then
        if taskUpdateUsing db uid (applyUpdates now u t) then
          if rowConstraintsOk (applyUpdates now u t) then
            .ok ({ db with tasks := db.tasks.map fun x =>
                     if x.id == tid then applyUpdates now u x else x },
                 applyUpdates now u t)
          else .error (.constraintViolation "priority")
        else .error .unauthorized
      else .error .notFound

/-- `useTasks.updateTask`: look the old task up in the *client-side
cache* (`tasks.find(t => t.id === id)`), run the UPDATE; on error return
it with the store untouched; on success issue a second, separate insert
of one `activity_logs` row (`action 'updated'`, `old_value` = the cached
copy, `new_value` = the updated row) whose outcome is ignored. -/
def updateTask (db : Store) (cache : List Task) (uid : UserId) (tid : Nat)
    (u : TaskUpdates) (newLogId now : Nat) : Store × Except StoreError Task :=
  match dbUpdateTask db uid tid u now with
  | .error e => (db, .error e)
  | .ok (db1, t1) =>
      (dbInsertActivityLog db1 uid
        { id := newLogId
          task_id := tid
          user_id := some uid
          action := "updated"
          old_value := cache.find? fun t => t.id == tid
          new_value := some t1
          created_at := now }, .ok t1)

/-- `DELETE FROM tasks WHERE id = tid` under RLS (`useTasks.deleteTask`):
only rows passing the DELETE policy's USING are removed (others are
silently untouched); `activity_logs.task_id ... ON DELETE CASCADE`
removes the logs of each removed task. -/
def dbDeleteTask (db : Store) (uid : UserId) (tid : Nat) : Store :=
  { db with
    tasks := db.tasks.filter fun t =>
      !(t.id == tid && taskDeleteUsing db uid t)
    activity_logs := db.activity_logs.filter fun l =>
      !(db.tasks.any fun t =>
          t.id == tid && taskDeleteUsing db uid t && t.id == l.task_id) }

/-- Deleting an identity from `auth.users`, with the schema's FK actions:
`profiles.id` and `user_roles.user_id` CASCADE, `tasks.created_by`
CASCADE, `tasks.assigned_to` SET NULL, `activity_logs.user_id` SET NULL,
and `activity_logs.task_id` CASCADE behind the task cascade. -/
def deleteUser (db : Store) (x : UserId) : Store :=
  let keptTasks := db.tasks.filter fun t => !(t.created_by == x)
  { users := db.users.filter fun u => !(u == x)
    profiles := db.profiles.filter fun p => !(p.id == x)
    user_roles := db.user_roles.filter fun r => !(r.user_id == x)
    tasks := keptTasks.map fun t =>
      if t.assigned_to == some x then { t with assigned_to := none } else t
    activity_logs := (db.activity_logs.filter fun l =>
        keptTasks.any fun t => t.id == l.task_id).map fun l =>
      if l.user_id == some x then { l with user_id := none } else l }

/-- The `(...)::app_role` enum cast: succeeds exactly on the two enum
labels; any other non-NULL string raises an error. -/
def castAppRole : String → Option AppRole
  | "manager" => some .manager
  | "user" => some .user
  | _ => none

/-- The signup metadata (`raw_user_meta_data`) fields the trigger reads. -/
structure SignupMeta where
  full_name : Option String
  role : Option String
deriving DecidableEq, Repr

/-- `public.handle_new_user()`: inserts one `profiles` row (`full_name`
via `COALESCE(meta->>'full_name', '')`) and one `user_roles` row with
`COALESCE((meta->>'role')::app_role, 'user')`.  `COALESCE` only covers
SQL NULL (absent metadata); an invalid non-NULL label makes the enum
cast raise, aborting the trigger. -/
def handle_new_user (db : Store) (uid : UserId) (email : String)
    (meta : SignupMeta) (roleRowId now : Nat) : Except StoreError Store :=
  match meta.role with
  | some s =>
      match castAppRole s with
      | none => .error (.constraintViolation "role")
      | some r =>
          .ok { db with
            profiles := db.profiles ++
              [{ id := uid
                 email := email
                 full_name := some (meta.full_name.getD "")
                 avatar_url := none
                 created_at := now
                 updated_at := now }]
            user_roles := db.user_roles ++
              [{ id := roleRowId, user_id := uid, role := r, created_at := now }] }
  | none =>
      .ok { db with
        profiles := db.profiles ++
          [{ id := uid
             email := email
             full_name := some (meta.full_name.getD "")
             avatar_url := none
             created_at := now
             updated_at := now }]
        user_roles := db.user_roles ++
          [{ id := roleRowId, user_id := uid, role := .user, created_at := now }] }

/-- Registering an identity: the `auth.users` insert fires the
`on_auth_user_created` AFTER INSERT trigger in the same transaction; an
error raised by the trigger aborts the identity insert as well. -/
def registerUser (db : Store) (uid : UserId) (email : String)
    (meta : SignupMeta) (roleRowId now : Nat) : Except StoreError Store :=
  handle_new_user { db with users := db.users ++ [uid] } uid email meta
    roleRowId now

/-- The data validated by the form's `taskSchema` (TaskForm.tsx). -/
structure TaskFormData where
  title : String
  description : Option String
  status : TaskStatus
  priority : Int
  assigned_to : Option UserId
  due_date : Option Nat
deriving DecidableEq, Repr

/-- The fields the `zod` schema `taskSchema` flags on `safeParse`:
`title` min 1 / max 200, `description` optional max 2000, `priority`
min 1 / max 5 (status, assignee and due date are typed and always
pass in this model). -/
def taskSchemaErrors (d : TaskFormData) : List String :=
  (if d.title.length < 1 || d.title.length > 200 then ["title"] else []) ++
  (match d.description with
   | some s => if s.length > 2000 then ["description"] else []
   | none => []) ++
  (if d.priority < 1 || d.priority > 5 then ["priority"] else [])

/-! ## Concrete fixtures used by witnesses and counterexamples -/

/-- A task created by identity 1 and assigned to identity 2. -/
def exTask : Task :=
  { id := 10, title := "t", description := none, status := .todo,
    priority := some 3, created_by := 1, assigned_to := some 2,
    due_date := none, created_at := 0, updated_at := 0 }

/-- Two identities: 1 is a manager, 2 a regular user; one task. -/
def exDb : Store :=
  { users := [1, 2]
    profiles := []
    user_roles := [{ id := 100, user_id := 1, role := .manager, created_at := 0 },
                   { id := 101, user_id := 2, role := .user, created_at := 0 }]
    tasks := [exTask]
    activity_logs := [] }

/-- The empty update payload (no field mentioned). -/
def noUpdates : TaskUpdates :=
  { title := none, description := none, status := none, priority := none,
    created_by := none, assigned_to := none, due_date := none }

/-- Update payload clearing `assigned_to` (sets it to SQL NULL). -/
def clearAssign : TaskUpdates := { noUpdates with assigned_to := some none }

/-- Update payload rewriting `created_by` to identity 2. -/
def setCreator : TaskUpdates := { noUpdates with created_by := some 2 }

/-- Update payload setting only `status`, as `updateTaskStatus` does. -/
def statusUpd : TaskUpdates := { noUpdates with status := some .completed }

/-- Update payload setting only `priority`. -/
def prioUpd : TaskUpdates := { noUpdates with priority := some (some 4) }

/-- A create payload with every optional column omitted. -/
def exPayloadNoPriority : TaskPayload :=
  { title := "n", description := none, status := none, priority := none,
    assigned_to := none, due_date := none }

/-- A create payload with an explicit in-range priority. -/
def exPayload : TaskPayload :=
  { title := "n", description := none, status := none,
    priority := some (some 2), assigned_to := none, due_date := none }

/-- The committed state of task 10 for the audit scenario. -/
def commTask : Task := { exTask with status := .in_progress }

/-- A stale client-side cache copy of task 10 (status still `todo`). -/
def staleTask : Task := { exTask with status := .todo }

/-- Store whose committed task 10 is `commTask`. -/
def exDb3 : Store := { exDb with tasks := [commTask] }

/-- A task whose creator and assignee are both identity 2. -/
def exTask8 : Task := { exTask with id := 20, created_by := 2, assigned_to := some 2 }

/-- Store holding `exTask8`. -/
def exDb8 : Store := { exDb with tasks := [exTask8] }

/-- Store with one activity log attached to task 10. -/
def exDbW : Store :=
  { exDb with activity_logs :=
      [{ id := 500, task_id := 10, user_id := some 1, action := "created",
         old_value := none, new_value := some exTask, created_at := 0 }] }

/-- Identity 5 holding both a manager row and a user row, manager first. -/
def dualA : Store :=
  { exDb with user_roles :=
      [{ id := 100, user_id := 5, role := .manager, created_at := 0 },
       { id := 101, user_id := 5, role := .user, created_at := 0 }] }

/-- The same two role rows in the opposite physical order. -/
def dualB : Store :=
  { exDb with user_roles :=
      [{ id := 101, user_id := 5, role := .user, created_at := 0 },
       { id := 100, user_id := 5, role := .manager, created_at := 0 }] }

/-- A 201-character title. -/
def longTitle : String := String.mk (List.replicate 201 'a')

/-- A create payload whose title has 201 characters. -/
def longPayload : TaskPayload :=
  { title := longTitle, description := none, status := none,
    priority := some (some 2), assigned_to := none, due_date := none }

/-- Form data violating both the title and the description bounds. -/
def badFormData : TaskFormData :=
  { title := "", description := some (String.mk (List.replicate 2001 'b')),
    status := .todo, priority := 3, assigned_to := none, due_date := none }

/-! ## Theorems -/

/-- C2: for every task `T` and identity `I`, `readTask` returns the row
iff `I = T.created_by` or `I = T.assigned_to`; any other identity gets
no row, indistinguishable from a nonexistent task. -/
theorem readTask_iff (db : Store) (uid : UserId) (tid : Nat) (t : Task)
    (ht : t ∈ db.tasks) (hid : t.id = tid)
    (huniq : ∀ t' ∈ db.tasks, t'.id = tid → t' = t) :
    (readTask db uid tid = some t ↔
      (t.created_by = uid ∨ t.assigned_to = some uid)) ∧
    (readTask db uid tid = none ↔
      ¬(t.created_by = uid ∨ t.assigned_to = some uid)) := by
  have hsel : taskSelectUsing uid t = true ↔
      (t.created_by = uid ∨ t.assigned_to = some uid) := by
    simp [taskSelectUsing, or_comm]
  have hmain : ∀ A : Prop, (taskSelectUsing uid t = true ↔ A) →
      (readTask db uid tid = some t ↔ A) ∧ (readTask db uid tid = none ↔ ¬A) := by
    intro A hA
    by_cases hvis : taskSelectUsing uid t = true
    · have hsome : readTask db uid tid = some t := by
        cases hfind : readTask db uid tid with
        | none =>
            exfalso
            have := List.find?_eq_none.mp hfind t ht
            simp [hvis, hid] at this
        | some y =>
            have hy := List.find?_some hfind
            have hmem := List.mem_of_find?_eq_some hfind
            have hyid : y.id = tid := by
              have := (Bool.and_eq_true _ _).mp hy
              simpa using this.2
            rw [huniq y hmem hyid]
      constructor
      · rw [hsome]; simp [hA.mp hvis]
      · rw [hsome]; simp [hA.mp hvis]
    · have hnone : readTask db uid tid = none := by
        apply List.find?_eq_none.mpr
        intro x hx
        by_cases hxid : x.id = tid
        · rw [huniq x hx hxid]
          simp [hvis]
        · simp [hxid]
      constructor
      · rw [hnone]; simp
        intro hAh
        exact hvis (hA.mpr hAh)
      · rw [hnone]
        simp
        intro hAh
        exact hvis (hA.mpr hAh)
  exact hmain _ hsel

/-- Witness for `readTask_iff` at the concrete fixture. -/
theorem readTask_iff_witness :
    (readTask exDb 2 10 = some exTask ↔
      (exTask.created_by = 2 ∨ exTask.assigned_to = some 2)) ∧
    (readTask exDb 2 10 = none ↔
      ¬(exTask.created_by = 2 ∨ exTask.assigned_to = some 2)) :=
  readTask_iff exDb 2 10 exTask (by decide) (by decide) (by decide)

/-- C4: a `createTask` call by an identity without the manager role
fails with `Unauthorized` and leaves the store exactly as it was — no
task row and no activity-log row are persisted. -/
theorem createTask_unauthorized (db : Store) (uid : UserId) (p : TaskPayload)
    (tid lid now : Nat) (h : hasRole db uid .manager = false) :
    createTask db uid p tid lid now = (db, .error .unauthorized) := by
  simp [createTask, dbInsertTask, taskInsertCheck, h]

/-- Witness for `createTask_unauthorized`: identity 2 is not a manager. -/
theorem createTask_unauthorized_witness :
    createTask exDb 2 exPayload 11 201 5 = (exDb, .error .unauthorized) :=
  createTask_unauthorized exDb 2 exPayload 11 201 5 (by decide)

/-- Unfolding of `dbUpdateTask` once the candidate row is known. -/
theorem dbUpdateTask_spec (db : Store) (uid : UserId) (tid now : Nat)
    (u : TaskUpdates) (t : Task)
    (hfind : db.tasks.find? (fun x => x.id == tid) = some t) :
    dbUpdateTask db uid tid u now =
      (if taskUpdateUsing db uid t then
        if taskUpdateUsing db uid (applyUpdates now u t) then
          if rowConstraintsOk (applyUpdates now u t) then
            .ok ({ db with tasks := db.tasks.map fun x =>
                     if x.id == tid then applyUpdates now u x else x },
                 applyUpdates now u t)
          else .error (.constraintViolation "priority")
        else .error .unauthorized
      else .error .notFound) := by
  unfold dbUpdateTask
  rw [hfind]

/-- A successful task INSERT returns the inserted row and only appends
to `tasks`; in particular `activity_logs` is untouched. -/
theorem dbInsertTask_ok_eq (db : Store) (uid : UserId) (t : Task)
    (db' : Store) (t' : Task) (h : dbInsertTask db uid t = .ok (db', t')) :
    t' = t ∧ db'.activity_logs = db.activity_logs := by
  unfold dbInsertTask at h
  by_cases h1 : taskInsertCheck db uid t = true
  · rw [if_pos h1] at h
    by_cases h2 : rowConstraintsOk t = true
    · rw [if_pos h2] at h
      simp only [Except.ok.injEq, Prod.mk.injEq] at h
      obtain ⟨hdb, ht⟩ := h
      subst hdb; subst ht
      exact ⟨rfl, rfl⟩
    · rw [if_neg h2] at h; exact Except.noConfusion h
  · rw [if_neg h1] at h; exact Except.noConfusion h

/-- A successful task UPDATE returns the row with the payload applied
and leaves `activity_logs` untouched. -/
theorem dbUpdateTask_ok_eq (db : Store) (uid : UserId) (tid now : Nat)
    (u : TaskUpdates) (t : Task) (db' : Store) (t' : Task)
    (hfind : db.tasks.find? (fun x => x.id == tid) = some t)
    (h : dbUpdateTask db uid tid u now = .ok (db', t')) :
    t' = applyUpdates now u t ∧ db'.activity_logs = db.activity_logs := by
  rw [dbUpdateTask_spec db uid tid now u t hfind] at h
  by_cases h1 : taskUpdateUsing db uid t = true
  · rw [if_pos h1] at h
    by_cases h2 : taskUpdateUsing db uid (applyUpdates now u t) = true
    · rw [if_pos h2] at h
      by_cases h3 : rowConstraintsOk (applyUpdates now u t) = true
      · rw [if_pos h3] at h
        simp only [Except.ok.injEq, Prod.mk.injEq] at h
        obtain ⟨hdb, ht⟩ := h
        subst hdb; subst ht
        exact ⟨rfl, rfl⟩
      · rw [if_neg h3] at h; exact Except.noConfusion h
    · rw [if_neg h2] at h; exact Except.noConfusion h
  · rw [if_neg h1] at h; exact Except.noConfusion h

/-- C1 (counterexample): identity 2 is the assignee of task 10 and not a
manager, yet its update clearing `assigned_to` is rejected: since the
UPDATE policies carry no separate WITH CHECK, the USING disjunction is
re-checked on the updated row, which no longer names 2 as assignee.  The
assignee can therefore not modify every field freely, contrary to the
claim's "no column restriction" reading. -/
theorem assignee_any_field_counterexample :
    hasRole exDb 2 .manager = false ∧ exTask.assigned_to = some 2 ∧
      exTask ∈ exDb.tasks ∧
      dbUpdateTask exDb 2 10 clearAssign 5 = .error .unauthorized :=
  ⟨rfl, rfl, by decide, rfl⟩

/-- C1 (amended): an update of task `t` by identity `uid` commits iff
the old row satisfies `(manager ∧ uid = created_by) ∨ (uid = assignee)`
*and* the updated row again satisfies that same disjunction (the USING
expressions double as WITH CHECK) and passes the priority constraint. -/
theorem taskUpdate_policy (db : Store) (uid : UserId) (tid now : Nat)
    (u : TaskUpdates) (t : Task)
    (hfind : db.tasks.find? (fun x => x.id == tid) = some t) :
    (∃ r, dbUpdateTask db uid tid u now = .ok r) ↔
      (taskUpdateUsing db uid t = true ∧
       taskUpdateUsing db uid (applyUpdates now u t) = true ∧
       rowConstraintsOk (applyUpdates now u t) = true) := by
  rw [dbUpdateTask_spec db uid tid now u t hfind]
  cases h1 : taskUpdateUsing db uid t <;>
    cases h2 : taskUpdateUsing db uid (applyUpdates now u t) <;>
      cases h3 : rowConstraintsOk (applyUpdates now u t) <;>
        simp [h1, h2, h3]

/-- Witness for `taskUpdate_policy`: the assignee's pure status update
on the fixture. -/
theorem taskUpdate_policy_witness :
    (∃ r, dbUpdateTask exDb 2 10 statusUpd 5 = .ok r) ↔
      (taskUpdateUsing exDb 2 exTask = true ∧
       taskUpdateUsing exDb 2 (applyUpdates 5 statusUpd exTask) = true ∧
       rowConstraintsOk (applyUpdates 5 statusUpd exTask) = true) :=
  taskUpdate_policy exDb 2 10 5 statusUpd exTask (by decide)

/-- C5 (counterexample): identity 2 (the assignee, not a manager) runs a
permitted update that rewrites `created_by` from 1 to 2 — the updated
row still passes the assignee policy, so nothing makes `created_by`
immutable. -/
theorem created_by_mutable_counterexample :
    exTask.created_by = 1 ∧ exTask.assigned_to = some 2 ∧
      hasRole exDb 2 .manager = false ∧
      (dbUpdateTask exDb 2 10 setCreator 5).toOption.map
        (fun r => r.2.created_by) = some 2 :=
  ⟨rfl, rfl, rfl, rfl⟩

/-- C5 (amended): `created_by` is preserved by every permitted update
whose payload does not itself write `created_by`; the policy layer does
not enforce immutability beyond that. -/
theorem createdBy_preserved (db : Store) (uid : UserId) (tid now : Nat)
    (u : TaskUpdates) (t : Task) (db' : Store) (t' : Task)
    (hc : u.created_by = none)
    (hfind : db.tasks.find? (fun x => x.id == tid) = some t)
    (h : dbUpdateTask db uid tid u now = .ok (db', t')) :
    t'.created_by = t.created_by := by
  rw [(dbUpdateTask_ok_eq db uid tid now u t db' t' hfind h).1]
  simp [applyUpdates, hc]

/-- Witness for `createdBy_preserved`: the assignee's status update. -/
theorem createdBy_preserved_witness :
    (applyUpdates 5 statusUpd exTask).created_by = exTask.created_by :=
  createdBy_preserved exDb 2 10 5 statusUpd exTask
    { exDb with tasks := exDb.tasks.map fun x =>
        if x.id == 10 then applyUpdates 5 statusUpd x else x }
    (applyUpdates 5 statusUpd exTask) rfl (by decide) rfl

/-- `createTask` on a successful INSERT: the hook follows up with the
separate activity-log insert and reports the inserted row. -/
theorem createTask_ok_spec (db : Store) (uid : UserId) (p : TaskPayload)
    (ntid lid now : Nat) (db1 : Store) (t1 : Task)
    (hi : dbInsertTask db uid (buildTask ntid now uid p) = .ok (db1, t1)) :
    createTask db uid p ntid lid now =
      (dbInsertActivityLog db1 uid
        { id := lid, task_id := t1.id, user_id := some uid,
          action := "created", old_value := none, new_value := some t1,
          created_at := now }, .ok t1) := by
  unfold createTask
  rw [hi]

/-- `createTask` on a failed INSERT reports the error, store untouched. -/
theorem createTask_error_spec (db : Store) (uid : UserId) (p : TaskPayload)
    (ntid lid now : Nat) (e : StoreError)
    (hi : dbInsertTask db uid (buildTask ntid now uid p) = .error e) :
    createTask db uid p ntid lid now = (db, .error e) := by
  unfold createTask
  rw [hi]

/-- `updateTask` on a successful UPDATE: the hook follows up with the
separate activity-log insert, taking `old_value` from the client cache. -/
theorem updateTask_ok_spec (db : Store) (cache : List Task) (uid : UserId)
    (tid : Nat) (u : TaskUpdates) (lid now : Nat) (db1 : Store) (t1 : Task)
    (hu : dbUpdateTask db uid tid u now = .ok (db1, t1)) :
    updateTask db cache uid tid u lid now =
      (dbInsertActivityLog db1 uid
        { id := lid, task_id := tid, user_id := some uid,
          action := "updated",
          old_value := cache.find? fun t => t.id == tid,
          new_value := some t1, created_at := now }, .ok t1) := by
  unfold updateTask
  rw [hu]

/-- `updateTask` on a failed UPDATE reports the error, store untouched. -/
theorem updateTask_error_spec (db : Store) (cache : List Task) (uid : UserId)
    (tid : Nat) (u : TaskUpdates) (lid now : Nat) (e : StoreError)
    (hu : dbUpdateTask db uid tid u now = .error e) :
    updateTask db cache uid tid u lid now = (db, .error e) := by
  unfold updateTask
  rw [hu]

/-- The hook's activity-log inserts always carry `user_id = auth.uid()`,
so their RLS WITH CHECK passes and the row is appended. -/
theorem dbInsertActivityLog_self (db : Store) (uid : UserId)
    (l : ActivityLog) (hl : l.user_id = some uid) :
    dbInsertActivityLog db uid l =
      { db with activity_logs := db.activity_logs ++ [l] } := by
  simp [dbInsertActivityLog, logInsertCheck, hl]

/-- C3 (counterexample): the audit row is written by a second, separate
insert whose `old_value` is the *client cache* copy of the task, not the
committed pre-state.  Here the committed task 10 has status
`in_progress` while the caller's cache still says `todo`: the update
succeeds and the single log row records `old_value.status = todo`,
different from the committed pre-state. -/
theorem audit_snapshot_counterexample :
    exDb3.tasks = [commTask] ∧ commTask.status = .in_progress ∧
      staleTask.status = .todo ∧
      (updateTask exDb3 [staleTask] 1 10 prioUpd 300 5).1.activity_logs.map
          ActivityLog.old_value = [some staleTask] ∧
      some staleTask ≠ some commTask :=
  ⟨rfl, rfl, rfl, rfl, by decide⟩

/-- C3 (amended): each accepted create/update is followed by exactly one
activity-log insert issued as a separate operation: `action`
`created`/`updated`, `new_value` the committed post-state, `old_value`
absent on create and equal to the caller's cached copy of the task on
update (which need not match the committed pre-state). -/
theorem audit_log_behavior (db : Store) (cache : List Task) (uid : UserId)
    (p : TaskPayload) (u : TaskUpdates) (tid ntid lid lid2 now : Nat) :
    (∀ t0, (createTask db uid p ntid lid now).2 = .ok t0 →
      (createTask db uid p ntid lid now).1.activity_logs =
        db.activity_logs ++
          [{ id := lid, task_id := t0.id, user_id := some uid,
             action := "created", old_value := none, new_value := some t0,
             created_at := now }]) ∧
    (∀ t1, (updateTask db cache uid tid u lid2 now).2 = .ok t1 →
      (updateTask db cache uid tid u lid2 now).1.activity_logs =
        db.activity_logs ++
          [{ id := lid2, task_id := tid, user_id := some uid,
             action := "updated",
             old_value := cache.find? fun c => c.id == tid,
             new_value := some t1, created_at := now }]) := by
  constructor
  · intro t0 h0
    cases hi : dbInsertTask db uid (buildTask ntid now uid p) with
    | error e =>
        rw [createTask_error_spec db uid p ntid lid now e hi] at h0
        exact Except.noConfusion h0
    | ok r =>
        obtain ⟨db1, t1⟩ := r
        rw [createTask_ok_spec db uid p ntid lid now db1 t1 hi] at h0 ⊢
        simp only [Except.ok.injEq] at h0
        subst h0
        rw [dbInsertActivityLog_self db1 uid _ rfl]
        rw [(dbInsertTask_ok_eq db uid _ db1 t1 hi).2]
  · intro t1 h1
    cases hu : dbUpdateTask db uid tid u now with
    | error e =>
        rw [updateTask_error_spec db cache uid tid u lid2 now e hu] at h1
        exact Except.noConfusion h1
    | ok r =>
        obtain ⟨db1, t2⟩ := r
        rw [updateTask_ok_spec db cache uid tid u lid2 now db1 t2 hu] at h1 ⊢
        simp only [Except.ok.injEq] at h1
        subst h1
        rw [dbInsertActivityLog_self db1 uid _ rfl]
        cases hf : db.tasks.find? (fun x => x.id == tid) with
        | none =>
            exfalso
            have : dbUpdateTask db uid tid u now = .error .notFound := by
              unfold dbUpdateTask
              rw [hf]
            rw [this] at hu
            exact Except.noConfusion hu
        | some t =>
            rw [(dbUpdateTask_ok_eq db uid tid now u t db1 t2 hf hu).2]

/-- Witness for `audit_log_behavior`: a manager creates a task and then
updates the one in the fixture. -/
theorem audit_log_behavior_witness :
    (createTask exDb 1 exPayload 12 400 5).1.activity_logs =
      exDb.activity_logs ++
        [{ id := 400, task_id := (buildTask 12 5 1 exPayload).id,
           user_id := some 1, action := "created", old_value := none,
           new_value := some (buildTask 12 5 1 exPayload),
           created_at := 5 }] ∧
    (updateTask exDb [exTask] 1 10 prioUpd 401 5).1.activity_logs =
      exDb.activity_logs ++
        [{ id := 401, task_id := 10, user_id := some 1,
           action := "updated",
           old_value := [exTask].find? fun c => c.id == 10,
           new_value := some (applyUpdates 5 prioUpd exTask),
           created_at := 5 }] :=
  ⟨(audit_log_behavior exDb [exTask] 1 exPayload prioUpd 10 12 400 401 5).1
      (buildTask 12 5 1 exPayload) rfl,
   (audit_log_behavior exDb [exTask] 1 exPayload prioUpd 10 12 400 401 5).2
      (applyUpdates 5 prioUpd exTask) rfl⟩

/-- The `app_role` cast accepts the label `'manager'`. -/
theorem castAppRole_manager : castAppRole "manager" = some .manager := rfl

/-- The `app_role` cast accepts the label `'user'`. -/
theorem castAppRole_user : castAppRole "user" = some .user := rfl

/-- C6 (counterexample): signing up with the invalid role metadata
`"admin"` does not default to `user` — the `(...)::app_role` cast inside
`handle_new_user` raises, the trigger error aborts the registration, and
no Profile or RoleAssignment row is created. -/
theorem provisioning_invalid_counterexample :
    castAppRole "admin" = none ∧
      registerUser exDb 7 "x@example.com"
        { full_name := none, role := some "admin" } 102 5 =
        .error (.constraintViolation "role") :=
  ⟨rfl, rfl⟩

/-- C6 (amended): registering an identity whose role metadata is absent
or one of the two valid labels atomically yields exactly one Profile row
and one RoleAssignment row; `"manager"` yields the manager role and
absent metadata yields `user` (an invalid label instead aborts the whole
registration). -/
theorem provisioning (db : Store) (uid : UserId) (email : String)
    (meta : SignupMeta) (rid now : Nat)
    (h : meta.role = none ∨ meta.role = some "manager" ∨
      meta.role = some "user") :
    registerUser db uid email meta rid now = .ok
      { db with
        users := db.users ++ [uid]
        profiles := db.profiles ++
          [{ id := uid, email := email,
             full_name := some (meta.full_name.getD ""),
             avatar_url := none, created_at := now, updated_at := now }]
        user_roles := db.user_roles ++
          [{ id := rid, user_id := uid,
             role := if meta.role = some "manager" then AppRole.manager
               else AppRole.user,
             created_at := now }] } := by
  rcases h with h | h | h <;>
    simp [registerUser, handle_new_user, castAppRole_manager,
      castAppRole_user, h]

/-- Witness for `provisioning`: manager signup on the fixture. -/
theorem provisioning_witness :
    registerUser exDb 7 "x@example.com"
      { full_name := some "N", role := some "manager" } 102 5 = .ok
      { exDb with
        users := exDb.users ++ [7]
        profiles := exDb.profiles ++
          [{ id := 7, email := "x@example.com", full_name := some "N",
             avatar_url := none, created_at := 5, updated_at := 5 }]
        user_roles := exDb.user_roles ++
          [{ id := 102, user_id := 7, role := .manager, created_at := 5 }] } :=
  provisioning exDb 7 "x@example.com"
    { full_name := some "N", role := some "manager" } 102 5
    (Or.inr (Or.inl rfl))

/-- C7 (counterexample): a task inserted without an explicit priority
gets the schema default `1` (`priority INTEGER DEFAULT 1`), not `3`. -/
theorem priority_default_counterexample :
    exPayloadNoPriority.priority = none ∧
      (dbInsertTask exDb 1 (buildTask 12 5 1 exPayloadNoPriority)).toOption.map
        (fun r => r.2.priority) = some (some 1) ∧ (1 : Int) ≠ 3 :=
  ⟨rfl, rfl, by decide⟩

/-- C7 (amended): every accepted insert satisfies the CHECK constraint —
any non-null stored priority lies in 1..5 — and a payload that omits
`priority` is stored with the column default `1`. -/
theorem priority_range_default (db : Store) (uid : UserId) (id now : Nat)
    (p : TaskPayload) (db' : Store) (t' : Task)
    (h : dbInsertTask db uid (buildTask id now uid p) = .ok (db', t')) :
    checkPriority t'.priority = true ∧
      (p.priority = none → t'.priority = some 1) := by
  unfold dbInsertTask at h
  by_cases h1 : taskInsertCheck db uid (buildTask id now uid p) = true
  · rw [if_pos h1] at h
    by_cases h2 : rowConstraintsOk (buildTask id now uid p) = true
    · rw [if_pos h2] at h
      simp only [Except.ok.injEq, Prod.mk.injEq] at h
      obtain ⟨hdb, ht⟩ := h
      subst ht
      refine ⟨h2, ?_⟩
      intro hp
      simp [buildTask, hp]
    · rw [if_neg h2] at h; exact Except.noConfusion h
  · rw [if_neg h1] at h; exact Except.noConfusion h

/-- Witness for `priority_range_default`: the manager's insert of the
payload with omitted priority. -/
theorem priority_range_default_witness :
    checkPriority (buildTask 12 5 1 exPayloadNoPriority).priority = true ∧
      (exPayloadNoPriority.priority = none →
        (buildTask 12 5 1 exPayloadNoPriority).priority = some 1) :=
  priority_range_default exDb 1 12 5 exPayloadNoPriority
    { exDb with tasks := exDb.tasks ++ [buildTask 12 5 1 exPayloadNoPriority] }
    (buildTask 12 5 1 exPayloadNoPriority) rfl

/-- C8 (counterexample): task 20 is assigned to identity 2, but 2 is
also its creator; deleting identity 2 cascades through
`tasks.created_by ... ON DELETE CASCADE` and removes the task entirely
instead of leaving it in place with `assigned_to` nulled. -/
theorem deleteUser_cascade_counterexample :
    exTask8 ∈ exDb8.tasks ∧ exTask8.assigned_to = some 2 ∧
      (deleteUser exDb8 2).tasks = [] :=
  ⟨by decide, rfl, rfl⟩

/-- C8 (amended): deleting a task removes every activity log referencing
it; deleting an identity nulls `assigned_to` on the tasks it was
assigned to and leaves them otherwise in place *provided it did not
create them* — tasks it created are cascade-deleted instead. -/
theorem deletion_cascade (db : Store) (uid x tid : Nat) (t : Task) :
    (t ∈ db.tasks → t.id = tid → taskDeleteUsing db uid t = true →
      ∀ l ∈ (dbDeleteTask db uid tid).activity_logs, l.task_id ≠ tid) ∧
    (t ∈ db.tasks → t.created_by ≠ x →
      (if t.assigned_to == some x then { t with assigned_to := none }
       else t) ∈ (deleteUser db x).tasks) ∧
    (t ∈ db.tasks → t.created_by = x → t ∉ (deleteUser db x).tasks) := by
  refine ⟨?_, ?_, ?_⟩
  · intro hmem hid hdel l hl hlid
    simp only [dbDeleteTask] at hl
    have hkeep := (List.mem_filter.mp hl).2
    rw [Bool.not_eq_true', List.any_eq_false] at hkeep
    exact hkeep t hmem (by simp [hid, hdel, hlid])
  · intro hmem hcb
    simp only [deleteUser]
    exact List.mem_map_of_mem _ (List.mem_filter.mpr ⟨hmem, by simp [hcb]⟩)
  · intro hmem hcb hcontra
    simp only [deleteUser] at hcontra
    obtain ⟨t2, ht2, hf⟩ := List.mem_map.mp hcontra
    have h2 := (List.mem_filter.mp ht2).2
    have hsame : t.created_by = t2.created_by := by
      rw [← hf]
      by_cases ha : t2.assigned_to == some x <;> simp [ha]
    rw [hcb] at hsame
    simp [← hsame] at h2

/-- Witness for `deletion_cascade` on the fixtures. -/
theorem deletion_cascade_witness :
    (∀ l ∈ (dbDeleteTask exDbW 1 10).activity_logs, l.task_id ≠ 10) ∧
      ((if exTask.assigned_to == some 2 then { exTask with assigned_to := none }
        else exTask) ∈ (deleteUser exDbW 2).tasks) ∧
      exTask8 ∉ (deleteUser exDb8 2).tasks :=
  ⟨(deletion_cascade exDbW 1 2 10 exTask).1 (by decide) rfl (by decide),
   (deletion_cascade exDbW 1 2 10 exTask).2.1 (by decide) (by decide),
   (deletion_cascade exDb8 1 2 20 exTask8).2.2 (by decide) rfl⟩

/-- The length of a string is the length of its character list. -/
theorem string_mk_length (l : List Char) : (String.mk l).length = l.length :=
  rfl

/-- C9 (counterexample): the store itself imposes no length constraint —
an insert whose title has 201 characters is accepted, not rejected with
a `ConstraintViolation`. -/
theorem store_length_counterexample :
    longTitle.length = 201 ∧
      (∃ r, dbInsertTask exDb 1 (buildTask 13 5 1 longPayload) = .ok r) :=
  ⟨by show (String.mk (List.replicate 201 'a')).length = 201
      rw [string_mk_length, List.length_replicate],
   ⟨_, rfl⟩⟩

/-- C9 (amended): it is the client-side `taskSchema` validation, not the
store, that rejects a payload whose title is outside 1–200 characters or
whose description exceeds 2000 characters, identifying the failing
field. -/
theorem form_validation (d : TaskFormData) :
    (d.title.length < 1 ∨ d.title.length > 200 →
      "title" ∈ taskSchemaErrors d) ∧
    (∀ s, d.description = some s → s.length > 2000 →
      "description" ∈ taskSchemaErrors d) := by
  constructor
  · intro h
    unfold taskSchemaErrors
    refine List.mem_append_left _ (List.mem_append_left _ ?_)
    rcases h with h | h <;> simp <;> omega
  · intro s hs h
    unfold taskSchemaErrors
    refine List.mem_append_left _ (List.mem_append_right _ ?_)
    simp [hs, h]

/-- Witness for `form_validation`: empty title, 2001-char description. -/
theorem form_validation_witness :
    "title" ∈ taskSchemaErrors badFormData ∧
      "description" ∈ taskSchemaErrors badFormData :=
  ⟨(form_validation badFormData).1 (Or.inl (by decide)),
   (form_validation badFormData).2 (String.mk (List.replicate 2001 'b'))
     rfl (by rw [string_mk_length, List.length_replicate]; omega)⟩

/-- C10: the `UNIQUE (user_id, role)` constraint allows an identity
holding both a manager row and a user row; `get_user_role` (`LIMIT 1`
with no `ORDER BY`) then returns whichever row comes first in physical
order — the two orderings of the same rows give different answers — and
in general it returns only roles the identity actually holds. -/
theorem role_resolver_dual :
    (∀ db : Store, ∀ x : UserId, ∀ r : AppRole,
      getUserRole db x = some r → hasRole db x r = true) ∧
      userRolesUniqueOk dualA.user_roles = true ∧
      dualA.user_roles.Perm dualB.user_roles ∧
      getUserRole dualA 5 = some .manager ∧
      getUserRole dualB 5 = some .user := by
  refine ⟨?_, by decide, by decide, rfl, rfl⟩
  intro db x r h
  unfold getUserRole at h
  cases hf : db.user_roles.filter (fun row => row.user_id == x) with
  | nil => rw [hf] at h; exact Option.noConfusion h
  | cons row rest =>
      rw [hf] at h
      have hr : row.role = r := by simpa using h
      have hrow : row ∈ db.user_roles.filter (fun row => row.user_id == x) := by
        rw [hf]; exact List.mem_cons_self _ _
      obtain ⟨hmem, hpred⟩ := List.mem_filter.mp hrow
      unfold hasRole
      rw [List.any_eq_true]
      exact ⟨row, hmem, by simp [hpred, hr]⟩

/-- Witness for `role_resolver_dual`: the manager row it returns for
identity 5 in `dualA` is indeed held by 5. -/
theorem role_resolver_dual_witness : hasRole dualA 5 .manager = true :=
  (role_resolver_dual).1 dualA 5 .manager rfl

end TaskManager
